import Mathlib

/-
Verification of the c19frcheck pipeline (src/run.py, src/import_data.py):
a shallow embedding of its record parsing, date arithmetic, aggregation and
report plumbing, with theorems checking the specified behaviour.

Conventions of the embedding:
  - Python strings are modelled as List Char; slicing val[a:b] (with
    0 <= a <= b, as in the source) clamps at the end of the list, exactly
    like Python slices.
  - Exceptions are modelled with Except.  Recoverable per-record errors
    (ParseError and subclasses) are one error type; exceptions that escape
    the per-line try/except (IndexError, ZeroDivisionError, AssertionError,
    ValueError, KeyError) are a separate fatal error type.
  - int(x / 365.25) on an integer number of days: 365.25 is exactly
    representable in binary floating point and the true quotient
    days*100/36525 is never closer than 1/1461 to an integer without being
    one, far above the rounding error of one float division, so the float
    computation agrees with exact rational truncation toward zero.  It is
    therefore embedded as Int.tdiv (days * 100) 36525.
-/

deriving instance DecidableEq for Except

/-- Characters of a Python string literal. -/
def pyStr (s : String) : List Char := s.data

/-- Python slice val[a:b] for 0 <= a <= b: clamps at the end of the string. -/
def pySlice (l : List Char) (a b : Nat) : List Char := (l.drop a).take (b - a)

/-- The recoverable per-record errors: ParseSexError and DateParseError,
both subclasses of ParseError in the source. -/
inductive ParseErr where
  | sexError
  | dateError
deriving DecidableEq

/-- Fatal exceptions that are not caught by the per-line handler. -/
inductive PyFatal where
  | indexError
  | zeroDivision
  | assertionError
  | valueError
  | keyError
deriving DecidableEq

/-- The function _parse_sex of run.py: the character "1" maps to "M",
"2" to "F", anything else raises ParseSexError. -/
def parseSex (c : Char) : Except ParseErr (List Char) :=
  if c = '1' then .ok (pyStr "M")
  else if c = '2' then .ok (pyStr "F")
  else .error .sexError

/-- Python truthiness of an optional string default: None and the empty
string are falsy, a nonempty string is truthy. -/
def pyTruthy : Option (List Char) → Bool
  | none => false
  | some s => decide (s ≠ [])

/-- One component check of _parse_date: if the component equals the
all-zero pattern, substitute the default when it is truthy, otherwise
raise DateParseError. -/
def substDefault (comp zero : List Char) (dflt : Option (List Char)) :
    Except ParseErr (List Char) :=
  if comp = zero then
    if pyTruthy dflt then .ok (dflt.getD []) else .error .dateError
  else .ok comp

/-- The function _parse_date of run.py: splits val into year (chars 0-3),
month (chars 4-5) and day (chars 6-7); year "0000" raises unconditionally;
month "00" and day "00" are substituted by their defaults when provided
(and truthy) and raise otherwise; the result is the hyphen-joined string.
No numeric validation happens here: the outer try/except only rewraps the
errors raised by these checks. -/
def parseDate (val : List Char) (defMonth defDay : Option (List Char)) :
    Except ParseErr (List Char) :=
  let year := pySlice val 0 4
  if year = pyStr "0000" then .error .dateError
  else
    match substDefault (pySlice val 4 6) (pyStr "00") defMonth with
    | .error e => .error e
    | .ok month =>
      match substDefault (pySlice val 6 8) (pyStr "00") defDay with
      | .error e => .error e
      | .ok day => .ok (year ++ pyStr "-" ++ month ++ pyStr "-" ++ day)

/-- One parsed death record of run.py: the dict with keys sex,
date_naissance and date_deces, all strings. -/
structure DecesRecord where
  sex : List Char
  dateNaissance : List Char
  dateDeces : List Char
deriving DecidableEq

/-- The body of the per-line try block of _parse_deces_file in run.py.
line[80] raises an uncaught IndexError when the line has at most 80
characters (the slices line[81:89] and line[154:162] never raise); the
inner Except carries the ParseError that the handler catches.  Birth dates
default month "06" and day "15"; death dates get no default. -/
def parseLine (line : List Char) : Except PyFatal (Except ParseErr DecesRecord) :=
  match line.get? 80 with
  | none => .error .indexError
  | some c =>
    .ok (match parseSex c with
      | .error e => .error e
      | .ok sex =>
        match parseDate (pySlice line 81 89) (some (pyStr "06")) (some (pyStr "15")) with
        | .error e => .error e
        | .ok naissance =>
          match parseDate (pySlice line 154 162) none none with
          | .error e => .error e
          | .ok deces => .ok ⟨sex, naissance, deces⟩)

/-- The reading loop of _parse_deces_file: a successfully parsed line
appends one record, a ParseError is caught and counted, and any fatal
error aborts the whole read at the first line that raises it. -/
def parseDecesLoop : List (List Char) → Except PyFatal (List DecesRecord × Nat)
  | [] => .ok ([], 0)
  | l :: rest =>
    match parseLine l with
    | .error e => .error e
    | .ok (.ok r) =>
      match parseDecesLoop rest with
      | .error e => .error e
      | .ok (recs, errs) => .ok (r :: recs, errs)
    | .ok (.error _) =>
      match parseDecesLoop rest with
      | .error e => .error e
      | .ok (recs, errs) => .ok (recs, errs + 1)

/-- The function _parse_deces_file of run.py: reads every line, then
prints the error-rate summary, whose percentage divides by the number of
lines read, raising ZeroDivisionError when the file had no lines. -/
def parseDecesFile (lines : List (List Char)) :
    Except PyFatal (List DecesRecord × Nat) :=
  match parseDecesLoop lines with
  | .error e => .error e
  | .ok res => if lines.length = 0 then .error .zeroDivision else .ok res

/-- Gregorian leap-year rule, as used by Python datetime. -/
def isLeap (y : Int) : Bool := y % 4 = 0 && (y % 100 ≠ 0 || y % 400 = 0)

/-- Day count of a month of the proleptic Gregorian calendar. -/
def daysInMonth (y m : Int) : Int :=
  if m = 2 then (if isLeap y then 29 else 28)
  else if m = 4 ∨ m = 6 ∨ m = 9 ∨ m = 11 then 30
  else 31

/-- Serial day number of a Gregorian calendar date, with day 0 at
1970-01-01, so that the difference of two day numbers is the .days field
of the timedelta that Python computes between the two datetimes. -/
def daysFromCivil (y m d : Int) : Int :=
  let yy := if m ≤ 2 then y - 1 else y
  let era := Int.fdiv yy 400
  let yoe := yy - era * 400
  let mp := Int.emod (m + 9) 12
  let doy := Int.fdiv (153 * mp + 2) 5 + d - 1
  let doe := yoe * 365 + Int.fdiv yoe 4 - Int.fdiv yoe 100 + doy
  era * 146097 + doe - 719468

/-- Split a string at a separator character, Python str.split semantics
for a one-character separator. -/
def splitOnChar (sep : Char) : List Char → List (List Char)
  | [] => [[]]
  | c :: rest =>
    let r := splitOnChar sep rest
    if c = sep then [] :: r
    else
      match r with
      | [] => [[c]]
      | h :: t => (c :: h) :: t

/-- Numeric value of a digit string. -/
def digitsToNat (s : List Char) : Nat :=
  s.foldl (fun acc c => acc * 10 + (c.toNat - 48)) 0

/-- A nonempty all-digit string parses to its value, anything else fails. -/
def parseNatStrict (s : List Char) : Option Nat :=
  if s ≠ [] ∧ s.all Char.isDigit then some (digitsToNat s) else none

/-- The function _to_dt of run.py: datetime.strptime(date, %Y-%m-%d),
yielding the serial day number of the parsed date, or none for the
ValueError that strptime raises on a malformed string (wrong shape,
non-numeric component, year outside 1..9999, month outside 1..12, or a
day that does not exist in that month). -/
def toDt (s : List Char) : Option Int :=
  match splitOnChar '-' s with
  | [ys, ms, ds] => do
    let y ← parseNatStrict ys
    let m ← parseNatStrict ms
    let d ← parseNatStrict ds
    if 1 ≤ y ∧ y ≤ 9999 ∧ 1 ≤ m ∧ m ≤ 12 ∧ 1 ≤ d ∧ (d : Int) ≤ daysInMonth (y : Int) (m : Int)
    then some (daysFromCivil (y : Int) (m : Int) (d : Int))
    else none
  | _ => none

/-- The function _dt_to_annees of run.py: int(dt.days / 365.25), exact
truncation toward zero of days*100/36525 (see the header note on float
exactness). -/
def dtToAnnees (days : Int) : Int := Int.tdiv (days * 100) 36525

/-- The age at death computed in _compute_deces_par_age of run.py, from
the serial day numbers of the birth and death dates:
min(_dt_to_annees(deces - naissance), 100). -/
def decesAgeOf (naissanceDays decesDays : Int) : Int :=
  min (dtToAnnees (decesDays - naissanceDays)) 100

/-- One row of the ages table (annee, age, nb). -/
structure AgeRow where
  annee : Int
  age : Int
  nb : Int
deriving DecidableEq

/-- Python dict assignment d[k] = v on an association list: replaces the
value at an existing key in place, else appends the new binding. -/
def dictSet : List (Int × Int) → Int → Int → List (Int × Int)
  | [], k, v => [(k, v)]
  | p :: t, k, v => if p.1 = k then (k, v) :: t else p :: dictSet t k v

/-- Python dict lookup d.get(k) on an association list. -/
def dictGet (d : List (Int × Int)) (k : Int) : Option Int :=
  (d.find? fun p => p.1 == k).map (fun p => p.2)

/-- The pyramide-des-ages dict built for one year by run.py: both the
setdefault loop of _compute_taux_mortalite_par_age (line 211,
pyramides_des_ages[annee][age] = nb) and the dict comprehension of the
inner _compute_deces_par_age (line 295) assign each row in turn, so a
later row with the same age silently overwrites the earlier one. -/
def buildPda (rows : List AgeRow) (annee : Int) : List (Int × Int) :=
  rows.foldl (fun d r => if r.annee = annee then dictSet d r.age r.nb else d) []

/-- What the spec asks populationByAge to be: the sum of the counts of
all stored bins with the given year and age. -/
def populationByAgeSpec (rows : List AgeRow) (annee age : Int) : Int :=
  ((rows.filter fun r => r.annee == annee && r.age == age).map (fun r => r.nb)).sum

/-- First-defined choice on optional values. -/
def optOr : Option Int → Option Int → Option Int
  | some v, _ => some v
  | none, b => b

/-- The count of the last stored bin for a given (year, age), none when no
bin matches. -/
def lastNb : List AgeRow → Int → Int → Option Int
  | [], _, _ => none
  | r :: rest, annee, age =>
    optOr (lastNb rest annee age)
      (if r.annee == annee && r.age == age then some r.nb else none)

/-- The inner _compute_taux_mortalite_par_age of run.py: for each age of
the deaths dict, rate nb / tot when the population lookup is truthy
(present and nonzero), and 0 otherwise. -/
def tauxMortaliteParAge (deces : List (Int × Nat)) (pda : List (Int × Int)) :
    List (Int × ℚ) :=
  deces.map fun p =>
    (p.1, match dictGet pda p.1 with
      | some tot => if tot ≠ 0 then (p.2 : ℚ) / (tot : ℚ) else 0
      | none => 0)

/-- Python defaultdict(int) increment res[k] += 1. -/
def dictIncr : List (Int × Nat) → Int → List (Int × Nat)
  | [], k => [(k, 1)]
  | p :: t, k => if p.1 = k then (p.1, p.2 + 1) :: t else p :: dictIncr t k

/-- Binary (memcmp) string comparison, as sqlite compares TEXT values in
the BETWEEN filter of the deces query; on ASCII data this is code-point
order. -/
def strLe : List Char → List Char → Bool
  | [], _ => true
  | _ :: _, [] => false
  | a :: as, b :: bs => if a = b then strLe as bs else decide (a < b)

/-- The accumulation loop of the inner _compute_deces_par_age of run.py:
each selected row has its two date strings parsed by _to_dt (a malformed
stored date raises an uncaught ValueError), the age at death is computed
and capped at 100, and the defaultdict entry for that age is incremented. -/
def decesParAgeLoop : List DecesRecord → List (Int × Nat) →
    Except PyFatal (List (Int × Nat))
  | [], acc => .ok acc
  | r :: rest, acc =>
    match toDt r.dateNaissance, toDt r.dateDeces with
    | some n, some d => decesParAgeLoop rest (dictIncr acc (decesAgeOf n d))
    | _, _ => .error .valueError

/-- The inner _compute_deces_par_age of run.py (lines 213-225): the SQL
filter date_deces BETWEEN lo AND hi followed by the accumulation loop. -/
def computeDecesParAge (rows : List DecesRecord) (lo hi : List Char) :
    Except PyFatal (List (Int × Nat)) :=
  decesParAgeLoop (rows.filter fun r => strLe lo r.dateDeces && strLe r.dateDeces hi) []

/-- Duration end - start of one configured date range, in days, as
_assert_all_date_ranges_have_same_duration computes it with _to_dt. -/
def durationOfRange (r : List Char × List Char) : Except PyFatal Int :=
  match toDt r.1, toDt r.2 with
  | some a, some b => .ok (b - a)
  | _, _ => .error .valueError

/-- The loop of _assert_all_date_ranges_have_same_duration of run.py: the
first range fixes the reference duration and every later range is
asserted equal to it, in order; assert failure is an AssertionError. -/
def checkDurationsLoop : Option Int → List (List Char × List Char) →
    Except PyFatal Unit
  | _, [] => .ok ()
  | curr, r :: rest =>
    match durationOfRange r with
    | .error e => .error e
    | .ok dur =>
      match curr with
      | none => checkDurationsLoop (some dur) rest
      | some d =>
        if d = dur then checkDurationsLoop (some d) rest
        else .error .assertionError

/-- The function _assert_all_date_ranges_have_same_duration of run.py. -/
def checkDurations (ranges : List (List Char × List Char)) : Except PyFatal Unit :=
  checkDurationsLoop none ranges

/-- The two configured comparison windows, DATE_RANGES of run.py. -/
def dateRangesConf : List (List Char × List Char) :=
  [(pyStr "2017-01-01", pyStr "2017-02-01"),
   (pyStr "2020-03-20", pyStr "2020-04-20")]

/-- The function _compute_taux_mortalite_par_age of run.py, with the
module-level DATE_RANGES table passed explicitly (first entry the grippe
window, second the covid window) and the two tables passed as row lists.
The duration assertion runs first, before any database read; then the
two windows are aggregated and divided by the per-year population dicts
(looking up pyramides_des_ages[2017] or [2020] raises KeyError when the
ages table has no row for that year). -/
def computeTauxMortaliteParAge (dateRanges : List (List Char × List Char))
    (decesRows : List DecesRecord) (ageRows : List AgeRow) :
    Except PyFatal (List (Int × ℚ) × List (Int × ℚ)) :=
  match checkDurations dateRanges with
  | .error e => .error e
  | .ok _ =>
    match dateRanges.get? 0 with
    | none => .error .keyError
    | some r17 =>
      match dateRanges.get? 1 with
      | none => .error .keyError
      | some r20 =>
        match computeDecesParAge decesRows r17.1 r17.2 with
        | .error e => .error e
        | .ok d17 =>
          match computeDecesParAge decesRows r20.1 r20.2 with
          | .error e => .error e
          | .ok d20 =>
            if ageRows.any fun r => r.annee == 2017 then
              let t17 := tauxMortaliteParAge d17 (buildPda ageRows 2017)
              if ageRows.any fun r => r.annee == 2020 then
                .ok (t17, tauxMortaliteParAge d20 (buildPda ageRows 2020))
              else .error .keyError
            else .error .keyError

/-- One spreadsheet cell as xlrd returns its value to run.py: a text
cell is a string (the empty string for an empty cell), a numeric cell is
a float with an integral value, carried here as that integer. -/
inductive Cell where
  | str (s : List Char)
  | num (n : Int)
deriving DecidableEq

/-- Python int(s) on a string: optional leading minus sign followed by at
least one digit; anything else raises ValueError. -/
def parseIntStr (s : List Char) : Except PyFatal Int :=
  match s with
  | '-' :: rest =>
    if rest ≠ [] ∧ rest.all Char.isDigit then .ok (-(digitsToNat rest : Int))
    else .error .valueError
  | _ =>
    if s ≠ [] ∧ s.all Char.isDigit then .ok (digitsToNat s : Int)
    else .error .valueError

/-- The age-cell parse of _parse_pda_file: assert age is not the empty
string (AssertionError); a text cell has every non-digit character
stripped by re.sub before int() (so the label 100 et + becomes 100, and a
text cell with no digit at all raises ValueError); a numeric cell is
taken as its integer value. -/
def parseAgeCell (c : Cell) : Except PyFatal Int :=
  match c with
  | .str s =>
    if s = [] then .error .assertionError
    else parseIntStr (s.filter Char.isDigit)
  | .num n => .ok n

/-- The count-cell parse of _parse_pda_file: assert nb is not the empty
string, then int(nb). -/
def parseNbCell (c : Cell) : Except PyFatal Int :=
  match c with
  | .str s => if s = [] then .error .assertionError else parseIntStr s
  | .num n => .ok n

/-- One iteration of the row loop of _parse_pda_file, at 0-based sheet
row i: parse the age cell of the conf age column, then the count cell of
the conf nb column (both conf columns are 1-based), and emit the row dict
(annee, age, nb). -/
def pdaRow (sheet : Nat → Nat → Cell) (ageCol nbCol : Nat) (annee : Int)
    (i : Nat) : Except PyFatal AgeRow :=
  match parseAgeCell (sheet i (ageCol - 1)) with
  | .error e => .error e
  | .ok age =>
    match parseNbCell (sheet i (nbCol - 1)) with
    | .error e => .error e
    | .ok nb => .ok ⟨annee, age, nb⟩

/-- The row loop of _parse_pda_file: rows are processed in order and the
first fatal cell aborts the whole parse. -/
def pdaLoop (f : Nat → Except PyFatal AgeRow) : List Nat →
    Except PyFatal (List AgeRow)
  | [] => .ok []
  | i :: rest =>
    match f i with
    | .error e => .error e
    | .ok row =>
      match pdaLoop f rest with
      | .error e => .error e
      | .ok rows => .ok (row :: rows)

/-- The function _parse_pda_file of run.py: iterates
range(first_row - 1, last_row), i.e. the 1-based sheet rows firstRow
through lastRow, both ends inclusive. -/
def parsePda (sheet : Nat → Nat → Cell) (firstRow lastRow ageCol nbCol : Nat)
    (annee : Int) : Except PyFatal (List AgeRow) :=
  pdaLoop (pdaRow sheet ageCol nbCol annee)
    (List.range' (firstRow - 1) (lastRow - (firstRow - 1)))

/-- The synthetic two-row sheet of the pyramid-ingestion example: ages in
1-based column 2, counts in 1-based column 5, every other cell empty. -/
def exampleSheet : Nat → Nat → Cell := fun i j =>
  if i = 0 ∧ j = 1 then .str (pyStr "99")
  else if i = 0 ∧ j = 4 then .num 50
  else if i = 1 ∧ j = 1 then .str (pyStr "100 et +")
  else if i = 1 ∧ j = 4 then .num 30
  else .str []

/-- A variant of the example sheet that differs only on rows outside the
configured row range (every 0-based row at or beyond 2 is overwritten). -/
def exampleSheetAlt : Nat → Nat → Cell := fun i j =>
  if 2 ≤ i then .num 7 else exampleSheet i j

/-- The persisted store: the deces table and the ages table of run.py,
each as its list of rows in insertion order. -/
structure Db where
  deces : List DecesRecord
  ages : List AgeRow
deriving DecidableEq

/-- The function _init_db of run.py: creates the tables if missing and
deletes every row from both. -/
def initDb (_db : Db) : Db := ⟨[], []⟩

/-- One configured source file as _import_data consumes it: a deces text
file given by its lines, or a pyramide-des-ages sheet with its conf
range and columns. -/
inductive FileConf where
  | deces (lines : List (List Char))
  | pda (sheet : Nat → Nat → Cell) (firstRow lastRow ageCol nbCol : Nat) (annee : Int)

/-- One iteration of _import_data of run.py: parse the file and insert
all its rows at the end of the matching table; any fatal parse error
aborts the run. -/
def importFile (db : Db) : FileConf → Except PyFatal Db
  | .deces lines =>
    match parseDecesFile lines with
    | .error e => .error e
    | .ok (rows, _) => .ok ⟨db.deces ++ rows, db.ages⟩
  | .pda sheet fr lr ac nc an =>
    match parsePda sheet fr lr ac nc an with
    | .error e => .error e
    | .ok rows => .ok ⟨db.deces, db.ages ++ rows⟩

/-- The function _import_data of run.py over the configured file list. -/
def importData : List FileConf → Db → Except PyFatal Db
  | [], db => .ok db
  | f :: rest, db =>
    match importFile db f with
    | .error e => .error e
    | .ok db2 => importData rest db2

/-- One import run as the pipeline performs it (the all command of run.py
and the main of import_data.py): _init_db clears both tables, then
_import_data reloads them from the source files. -/
def importRun (files : List FileConf) (db : Db) : Except PyFatal Db :=
  importData files (initDb db)



/-
Claim theorems.
-/

/-- Claim C5 counterexample: on the 8-character input 19xx0101, whose
year substring is non-numeric, _parse_date does not fail with a
MalformedDate error: it returns the string 19xx-01-01.  The only checks
the code performs are the literal comparisons against 0000 and 00; numeric
validity is never examined, so a malformed component is detected only
later, when _to_dt is applied to the stored string at aggregation time. -/
theorem parseDate_malformed_counterexample :
    parseDate (pyStr "19xx0101") none none = .ok (pyStr "19xx-01-01") := by
  decide

/-- Claim C5 as amended: _parse_date performs no numeric or range
validation at all.  For every input whose year, month and day substrings
differ from the literal patterns 0000 and 00, it returns the hyphen-joined
components unchanged, whether or not they are numeric or in range; a bad
component only fails later, in _to_dt, at aggregation time. -/
theorem parseDate_no_validation (val : List Char) (dm dd : Option (List Char))
    (hy : pySlice val 0 4 ≠ pyStr "0000")
    (hm : pySlice val 4 6 ≠ pyStr "00")
    (hd : pySlice val 6 8 ≠ pyStr "00") :
    parseDate val dm dd =
      .ok (pySlice val 0 4 ++ pyStr "-" ++ pySlice val 4 6 ++ pyStr "-" ++
        pySlice val 6 8) := by
  simp [parseDate, substDefault, hy, hm, hd]

/-- Claim C5 witness: the amended theorem applied to the input 19451350,
whose month substring 13 is numeric but out of range: it is accepted
verbatim. -/
theorem parseDate_no_validation_witness :
    parseDate (pyStr "19451350") none none = .ok (pyStr "1945-13-50") :=
  parseDate_no_validation (pyStr "19451350") none none
    (by decide) (by decide) (by decide)

/-- Claim C6: the year substring 0000 fails regardless of any defaults;
the month substring 00 is replaced by a provided (nonempty) default month
and fails when no default is given; the day substring 00 is replaced by a
provided (nonempty) default day and fails when no default is given; and
parseDate 19450600 with default day 15 returns 1945-06-15. -/
theorem parseDate_component_defaults (val : List Char) (dm dd : Option (List Char)) :
    (pySlice val 0 4 = pyStr "0000" → parseDate val dm dd = .error .dateError)
  ∧ (pySlice val 0 4 ≠ pyStr "0000" → pySlice val 4 6 = pyStr "00" → dm = none →
      parseDate val dm dd = .error .dateError)
  ∧ (∀ m, pySlice val 0 4 ≠ pyStr "0000" → pySlice val 4 6 = pyStr "00" →
      dm = some m → m ≠ [] → pySlice val 6 8 ≠ pyStr "00" →
      parseDate val dm dd =
        .ok (pySlice val 0 4 ++ pyStr "-" ++ m ++ pyStr "-" ++ pySlice val 6 8))
  ∧ (pySlice val 0 4 ≠ pyStr "0000" → pySlice val 4 6 ≠ pyStr "00" →
      pySlice val 6 8 = pyStr "00" → dd = none →
      parseDate val dm dd = .error .dateError)
  ∧ (∀ d, pySlice val 0 4 ≠ pyStr "0000" → pySlice val 4 6 ≠ pyStr "00" →
      pySlice val 6 8 = pyStr "00" → dd = some d → d ≠ [] →
      parseDate val dm dd =
        .ok (pySlice val 0 4 ++ pyStr "-" ++ pySlice val 4 6 ++ pyStr "-" ++ d))
  ∧ parseDate (pyStr "19450600") none (some (pyStr "15")) = .ok (pyStr "1945-06-15") := by
  refine ⟨?_, ?_, ?_, ?_, ?_, by decide⟩
  · intro h1
    simp [parseDate, h1]
  · intro h1 h2 h3
    subst h3
    simp [parseDate, substDefault, pyTruthy, h1, h2]
  · intro m h1 h2 h3 h4 h5
    subst h3
    simp [parseDate, substDefault, pyTruthy, h1, h2, h4, h5]
  · intro h1 h2 h3 h4
    subst h4
    simp [parseDate, substDefault, pyTruthy, h1, h2, h3]
  · intro d h1 h2 h3 h4 h5
    subst h4
    simp [parseDate, substDefault, pyTruthy, h1, h2, h3, h5]

/-- Claim C6 witness: the first conjunct applied to 00000101 with both
defaults provided: the year check fails regardless of defaults. -/
theorem parseDate_component_defaults_witness :
    parseDate (pyStr "00000101") (some (pyStr "06")) (some (pyStr "15")) =
      .error .dateError :=
  (parseDate_component_defaults (pyStr "00000101")
    (some (pyStr "06")) (some (pyStr "15"))).1 (by decide)

/-- Claim C10: ingesting a file with zero lines does not return an empty
record list; the end-of-file summary divides the error count by the number
of lines read, which is zero, so _parse_deces_file raises
ZeroDivisionError. -/
theorem parseDecesFile_empty_raises :
    parseDecesFile [] = .error .zeroDivision
      ∧ parseDecesFile [] ≠ .ok ([], 0) := by
  decide

/-- Helper for claim C4: when every line of the file has more than 80
characters, the reading loop finishes without a fatal error, and every
line contributes exactly one record or one counted error. -/
theorem parseDecesLoop_total (lines : List (List Char))
    (h : ∀ l ∈ lines, 80 < l.length) :
    ∃ recs errs, parseDecesLoop lines = .ok (recs, errs) ∧
      recs.length + errs = lines.length := by
  induction lines with
  | nil => exact ⟨[], 0, rfl, rfl⟩
  | cons l rest ih =>
    have hl : 80 < l.length := h l (List.mem_cons_self l rest)
    obtain ⟨recs, errs, hrec, hcount⟩ :=
      ih fun x hx => h x (List.mem_cons_of_mem l hx)
    cases hpl : parseLine l with
    | error e =>
      cases hg : l.get? 80 with
      | none =>
        exact absurd (List.get?_eq_none.mp hg) (Nat.not_le_of_lt hl)
      | some c =>
        unfold parseLine at hpl
        rw [hg] at hpl
        exact absurd hpl (by simp)
    | ok inner =>
      cases inner with
      | ok r =>
        refine ⟨r :: recs, errs, ?_, by simp; omega⟩
        simp [parseDecesLoop, hpl, hrec]
      | error e =>
        refine ⟨recs, errs + 1, ?_, by simp; omega⟩
        simp [parseDecesLoop, hpl, hrec]

/-- Claim C4 counterexample: ingestion can abort on a non-matching line.
On a file whose only line is the single character x, the access line[80]
raises an IndexError, which is not a ParseError and is therefore not
caught by the per-line handler: the whole read aborts instead of skipping
the line with a counted error. -/
theorem parseDecesFile_abort_counterexample :
    parseDecesFile [pyStr "x"] = .error .indexError := by
  decide

/-- Claim C4 as amended: for every nonempty sequence of raw input lines
each of which has more than 80 characters, every line that fails to parse
(bad sex code, bad date component) is skipped with a counted error while
processing continues, no partial record of a failed line is stored, and
ingestion returns normally with one record or one counted error per line;
but a line of at most 80 characters raises an uncaught IndexError that
aborts ingestion (see the counterexample). -/
theorem parseDecesFile_skips_and_continues (lines : List (List Char))
    (hne : lines ≠ []) (h : ∀ l ∈ lines, 80 < l.length) :
    ∃ recs errs, parseDecesFile lines = .ok (recs, errs) ∧
      recs.length + errs = lines.length := by
  obtain ⟨recs, errs, hrec, hcount⟩ := parseDecesLoop_total lines h
  refine ⟨recs, errs, ?_, hcount⟩
  have hlen : lines.length ≠ 0 := fun h0 => hne (List.length_eq_zero.mp h0)
  simp [parseDecesFile, hrec, hlen]

/-- Claim C4 witness: the amended theorem applied to a three-line file,
each line 81 characters long: sex digit 1 (a valid record with truncated,
undetected dates), sex digit 9 (ParseSexError, counted and skipped), and
sex digit 2 (again valid); the run returns normally and the three lines
yield two records plus one counted error. -/
theorem parseDecesFile_skips_witness :
    ∃ recs errs,
      parseDecesFile
        [List.replicate 80 ' ' ++ [Char.ofNat 49],
         List.replicate 80 ' ' ++ [Char.ofNat 57],
         List.replicate 80 ' ' ++ [Char.ofNat 50]] = .ok (recs, errs) ∧
      recs.length + errs = 3 :=
  parseDecesFile_skips_and_continues _ (by decide) (by decide)

/-- Claim C1 counterexample: for birth date 2020-01-01 and death date
2018-01-01 the day difference is -730, floor(-730 / 365.25) is -2, but the
code computes int(-730 / 365.25) = -1: Python int() truncates toward zero,
so the negative age that is propagated is the truncated quotient, not the
floor the claim states. -/
theorem decesAge_not_floor_counterexample :
    decesAgeOf ((toDt (pyStr "2020-01-01")).getD 0) ((toDt (pyStr "2018-01-01")).getD 0)
        = -1
  ∧ Int.fdiv
      (((toDt (pyStr "2018-01-01")).getD 0 - (toDt (pyStr "2020-01-01")).getD 0) * 100)
      36525 = -2 := by
  decide

/-- Claim C1 as amended: the computed age at death is the truncation
toward zero of (death - birth).days / 365.25, which coincides with the
floor whenever death is not before birth; a raw result above 100 is
replaced by 100 in aggregation; and when the death date precedes the birth
date the (negative or zero) truncated result passes through the
min(. , 100) cap unchanged, neither rejected nor clamped to zero. -/
theorem decesAge_trunc_cap (n d : Int) :
    (0 ≤ d - n → decesAgeOf n d = min (Int.fdiv ((d - n) * 100) 36525) 100)
  ∧ (d - n < 0 → decesAgeOf n d = dtToAnnees (d - n) ∧ dtToAnnees (d - n) ≤ 0)
  ∧ (100 < dtToAnnees (d - n) → decesAgeOf n d = 100) := by
  refine ⟨?_, ?_, ?_⟩
  · intro ha
    have heq : Int.tdiv ((d - n) * 100) 36525 = Int.fdiv ((d - n) * 100) 36525 := by
      obtain ⟨k, hk⟩ := Int.eq_ofNat_of_zero_le ha
      rw [hk]
      rw [show ((k : Int) * 100) = ((k * 100 : Nat) : Int) by push_cast; ring]
      rw [show (36525 : Int) = ((36525 : Nat) : Int) by norm_num]
      rw [← Int.ofNat_tdiv, ← Int.ofNat_fdiv]
    unfold decesAgeOf dtToAnnees
    rw [heq]
  · intro ha
    have hneg : (d - n) * 100 ≤ 0 :=
      le_of_lt (mul_neg_of_neg_of_pos ha (by norm_num))
    have hle : dtToAnnees (d - n) ≤ 0 := by
      unfold dtToAnnees
      have h1 : Int.tdiv (-((d - n) * 100)) 36525 ≥ 0 :=
        Int.tdiv_nonneg (by omega) (by norm_num)
      have h2 : Int.tdiv (-((d - n) * 100)) 36525 = -(Int.tdiv ((d - n) * 100) 36525) :=
        Int.neg_tdiv _ _
      omega
    exact ⟨min_eq_left (le_trans hle (by norm_num)), hle⟩
  · intro hgt
    exact min_eq_right (le_of_lt hgt)

/-- Claim C1 witness: the amended theorem applied to birth 1900-01-01 and
death 2020-01-01, a nonnegative difference whose raw quotient 120 exceeds
100: the truncation agrees with the floor and the cap applies. -/
theorem decesAge_trunc_cap_witness :
    decesAgeOf ((toDt (pyStr "1900-01-01")).getD 0) ((toDt (pyStr "2020-01-01")).getD 0)
      = min (Int.fdiv
          (((toDt (pyStr "2020-01-01")).getD 0 - (toDt (pyStr "1900-01-01")).getD 0) * 100)
          36525) 100 :=
  (decesAge_trunc_cap ((toDt (pyStr "1900-01-01")).getD 0)
    ((toDt (pyStr "2020-01-01")).getD 0)).1 (by decide)

/-- Helper for claim C2: Python dict assignment followed by lookup. -/
theorem dictGet_dictSet (d : List (Int × Int)) (k v k' : Int) :
    dictGet (dictSet d k v) k' = if k' = k then some v else dictGet d k' := by
  induction d with
  | nil =>
    by_cases hk : k' = k
    · simp [dictSet, dictGet, List.find?, hk]
    · simp [dictSet, dictGet, List.find?, hk,
        beq_eq_false_iff_ne.mpr (Ne.symm hk)]
  | cons p t ih =>
    unfold dictGet at ih
    by_cases hp : p.1 = k
    · by_cases hk : k' = k
      · simp [dictSet, dictGet, List.find?, hp, hk]
      · simp [dictSet, dictGet, List.find?, hp, hk,
          beq_eq_false_iff_ne.mpr (Ne.symm hk),
          beq_eq_false_iff_ne.mpr (show p.1 ≠ k' from hp ▸ Ne.symm hk)]
    · by_cases hpk : p.1 = k'
      · have hk : ¬ k' = k := fun h => hp (h ▸ hpk)
        simp [dictSet, dictGet, List.find?, hp, hpk, hk]
      · simp [dictSet, dictGet, List.find?, hp,
          beq_eq_false_iff_ne.mpr hpk]
        exact ih

/-- Helper for claim C2: folding the per-row dict assignments over the
rows of one year resolves a lookup to the last matching row, falling back
to the initial dict. -/
theorem buildPda_fold (rows : List AgeRow) (annee age : Int) :
    ∀ d : List (Int × Int),
      dictGet (rows.foldl
          (fun d r => if r.annee = annee then dictSet d r.age r.nb else d) d) age
        = optOr (lastNb rows annee age) (dictGet d age) := by
  induction rows with
  | nil => intro d; rfl
  | cons r rest ih =>
    intro d
    simp only [List.foldl_cons]
    rw [ih]
    cases hlast : lastNb rest annee age with
    | some v => simp [lastNb, hlast, optOr]
    | none =>
      simp only [lastNb, hlast, optOr]
      by_cases hann : r.annee = annee
      · rw [if_pos hann, dictGet_dictSet]
        by_cases hage : r.age = age
        · simp [hann, hage]
        · simp [hann, hage, Ne.symm hage,
            beq_eq_false_iff_ne.mpr hage]
      · rw [if_neg hann]
        simp [beq_eq_false_iff_ne.mpr hann]

/-- Claim C2 counterexample: two stored population bins for the same
(year, age) do not contribute their combined count.  With the bins
(2017, 50, 10) and (2017, 50, 20) in the ages table, the mapping the code
builds gives age 50 the count 20 of the last bin read, while the sum the
claim states is 30. -/
theorem buildPda_sum_counterexample :
    dictGet (buildPda [⟨2017, 50, 10⟩, ⟨2017, 50, 20⟩] 2017) 50 = some 20
  ∧ populationByAgeSpec [⟨2017, 50, 10⟩, ⟨2017, 50, 20⟩] 2017 50 = 30 := by
  decide

/-- Claim C2 as amended: for every year, the population-by-age mapping
built from the stored bins (both by the setdefault loop and by the dict
comprehension of run.py) maps each age to the count of the LAST stored
bin for that (year, age) pair: a later bin with the same age overwrites
an earlier one instead of being summed with it. -/
theorem buildPda_last_wins (rows : List AgeRow) (annee age : Int) :
    dictGet (buildPda rows annee) age = lastNb rows annee age := by
  unfold buildPda
  rw [buildPda_fold]
  cases lastNb rows annee age <;> rfl

/-- Claim C3: the rate mapping is total over the deaths mapping (one rate
per age, same ages in the same order, so no age is dropped and no
division fault or null rate can occur); an age whose population lookup is
a nonzero count gets rate deaths divided by population; an age whose
population is absent or zero gets rate 0. -/
theorem taux_total_and_safe (deces : List (Int × Nat)) (pda : List (Int × Int)) :
    ((tauxMortaliteParAge deces pda).map Prod.fst = deces.map Prod.fst)
  ∧ (∀ a n, (a, n) ∈ deces → ∀ tot, dictGet pda a = some tot → tot ≠ 0 →
      (a, (n : ℚ) / (tot : ℚ)) ∈ tauxMortaliteParAge deces pda)
  ∧ (∀ a n, (a, n) ∈ deces → (dictGet pda a = none ∨ dictGet pda a = some 0) →
      (a, (0 : ℚ)) ∈ tauxMortaliteParAge deces pda) := by
  refine ⟨?_, ?_, ?_⟩
  · rw [tauxMortaliteParAge, List.map_map]
    exact List.map_congr_left fun p _ => rfl
  · intro a n hmem tot htot hne
    have h := List.mem_map_of_mem
      (fun p : Int × Nat => ((p.1 : Int),
        match dictGet pda p.1 with
        | some t => if t ≠ 0 then (p.2 : ℚ) / (t : ℚ) else 0
        | none => (0 : ℚ))) hmem
    rw [tauxMortaliteParAge]
    simpa [htot, hne] using h
  · intro a n hmem hcase
    have h := List.mem_map_of_mem
      (fun p : Int × Nat => ((p.1 : Int),
        match dictGet pda p.1 with
        | some t => if t ≠ 0 then (p.2 : ℚ) / (t : ℚ) else 0
        | none => (0 : ℚ))) hmem
    rw [tauxMortaliteParAge]
    cases hcase with
    | inl hnone => simpa [hnone] using h
    | inr hzero => simpa [hzero] using h

/-- Claim C3 witness: the second and third conjuncts applied to a deaths
mapping with ages 50 and 90 and a population table that knows age 50
(count 4) but not age 90: age 50 gets rate 2/4 and age 90 gets rate 0. -/
theorem taux_total_and_safe_witness :
    (50, (2 : ℚ) / (4 : ℚ)) ∈ tauxMortaliteParAge [(50, 2), (90, 7)] [(50, 4)]
  ∧ (90, (0 : ℚ)) ∈ tauxMortaliteParAge [(50, 2), (90, 7)] [(50, 4)] :=
  ⟨(taux_total_and_safe [(50, 2), (90, 7)] [(50, 4)]).2.1 50 2 (by decide) 4
      (by decide) (by decide),
   (taux_total_and_safe [(50, 2), (90, 7)] [(50, 4)]).2.2 90 7 (by decide)
      (Or.inl (by decide))⟩

/-- Claim C7: an import run clears both tables before loading (its result
is the same whatever the tables held before, so nothing is ever appended
to surviving rows), and re-importing the same source files a second time,
starting from the state the first import left, reproduces exactly the
same table contents. -/
theorem importRun_clears_and_idempotent :
    (∀ (files : List FileConf) (db db' : Db),
      importRun files db = importRun files db')
  ∧ (∀ (files : List FileConf) (db db1 : Db),
      importRun files db = .ok db1 → importRun files db1 = .ok db1) := by
  constructor
  · intro files db db'
    rfl
  · intro files db db1 h
    exact h

/-- Claim C7 witness: importing the two-row pyramid sheet into a store
already holding exactly the rows of a first import returns that same
store unchanged. -/
theorem importRun_clears_witness :
    importRun [FileConf.pda exampleSheet 1 2 2 5 2017]
        ⟨[], [⟨2017, 99, 50⟩, ⟨2017, 100, 30⟩]⟩
      = .ok ⟨[], [⟨2017, 99, 50⟩, ⟨2017, 100, 30⟩]⟩ :=
  importRun_clears_and_idempotent.2 [FileConf.pda exampleSheet 1 2 2 5 2017]
    ⟨[], []⟩ ⟨[], [⟨2017, 99, 50⟩, ⟨2017, 100, 30⟩]⟩ (by decide)

/-- Claim C8: for every pair of configured comparison windows whose
durations (end - start) differ, _compute_taux_mortalite_par_age fails
with the duration-mismatch assertion (the WindowDurationMismatch of the
claim) and produces no output, whatever the deces and ages tables
contain: the check runs before any aggregation touches the store. -/
theorem computeTaux_mismatch_fatal (r1 r2 : List Char × List Char)
    (rest : List (List Char × List Char)) (decesRows : List DecesRecord)
    (ageRows : List AgeRow) (d1 d2 : Int)
    (h1 : durationOfRange r1 = .ok d1) (h2 : durationOfRange r2 = .ok d2)
    (hne : d1 ≠ d2) :
    computeTauxMortaliteParAge (r1 :: r2 :: rest) decesRows ageRows
      = .error .assertionError := by
  have hc : checkDurations (r1 :: r2 :: rest) = .error .assertionError := by
    simp [checkDurations, checkDurationsLoop, h1, h2, hne]
  simp [computeTauxMortaliteParAge, hc]

/-- Claim C8 witness: a 31-day window paired with a 5-day window is fatal
on empty tables. -/
theorem computeTaux_mismatch_witness :
    computeTauxMortaliteParAge
        [(pyStr "2017-01-01", pyStr "2017-02-01"),
         (pyStr "2020-03-20", pyStr "2020-03-25")] [] []
      = .error .assertionError :=
  computeTaux_mismatch_fatal (pyStr "2017-01-01", pyStr "2017-02-01")
    (pyStr "2020-03-20", pyStr "2020-03-25") [] [] [] 31 5
    (by decide) (by decide) (by decide)

/-- Helper for claim C9: the pyramid row loop only looks at the row
indices it is given. -/
theorem pdaLoop_congr (f g : Nat → Except PyFatal AgeRow) (idxs : List Nat)
    (h : ∀ i ∈ idxs, f i = g i) : pdaLoop f idxs = pdaLoop g idxs := by
  induction idxs with
  | nil => rfl
  | cons j rest ih =>
    simp only [pdaLoop]
    rw [h j (List.mem_cons_self j rest),
      ih fun i hi => h i (List.mem_cons_of_mem j hi)]

/-- Helper for claim C9: if the pyramid row loop returns normally, every
row it visited parsed without a fatal error. -/
theorem pdaLoop_ok_all (f : Nat → Except PyFatal AgeRow) (idxs : List Nat)
    (rows : List AgeRow) (h : pdaLoop f idxs = .ok rows) :
    ∀ i ∈ idxs, ∃ r, f i = .ok r := by
  induction idxs generalizing rows with
  | nil => intro i hi; simp at hi
  | cons j rest ih =>
    intro i hi
    cases hf : f j with
    | error e => simp [pdaLoop, hf] at h
    | ok row =>
      cases hrest : pdaLoop f rest with
      | error e => simp [pdaLoop, hf, hrest] at h
      | ok rows2 =>
        rcases List.mem_cons.mp hi with rfl | hmem
        · exact ⟨row, hf⟩
        · exact ih rows2 hrest i hmem

/-- Claim C9: pyramid ingestion of the synthetic two-row sheet (ages 99
and 100 et +, counts 50 and 30, year 2017) yields exactly the bins
(2017, 99, 50) and (2017, 100, 30); the textual age label has every
non-digit character stripped, so 100 et + parses to age 100; the parse
reads exactly the 1-based rows firstRow through lastRow, both ends
inclusive (two sheets agreeing on the age and count cells of those rows
parse identically, whatever their other cells hold); and a sheet with an
empty age or count cell in a visited row is a fatal error: the parse
never returns a bin list. -/
theorem parsePda_rows_inclusive :
    (parsePda exampleSheet 1 2 2 5 2017 = .ok [⟨2017, 99, 50⟩, ⟨2017, 100, 30⟩])
  ∧ (parseAgeCell (.str (pyStr "100 et +")) = .ok 100)
  ∧ (∀ s1 s2 fr lr ac nc an,
      (∀ i, fr - 1 ≤ i → i < lr →
        s1 i (ac - 1) = s2 i (ac - 1) ∧ s1 i (nc - 1) = s2 i (nc - 1)) →
      parsePda s1 fr lr ac nc an = parsePda s2 fr lr ac nc an)
  ∧ (∀ s fr lr ac nc an i, fr - 1 ≤ i → i < lr →
      (s i (ac - 1) = .str [] ∨ s i (nc - 1) = .str []) →
      ∀ bins, parsePda s fr lr ac nc an ≠ .ok bins) := by
  refine ⟨by decide, by decide, ?_, ?_⟩
  · intro s1 s2 fr lr ac nc an h
    unfold parsePda
    apply pdaLoop_congr
    intro i hi
    rw [List.mem_range'] at hi
    obtain ⟨j, hj, rfl⟩ := hi
    have h1 : fr - 1 ≤ fr - 1 + 1 * j := by omega
    have h2 : fr - 1 + 1 * j < lr := by omega
    have hc := h (fr - 1 + 1 * j) h1 h2
    unfold pdaRow
    rw [hc.1, hc.2]
  · intro s fr lr ac nc an i hge hlt hcell bins heq
    unfold parsePda at heq
    have hmem : i ∈ List.range' (fr - 1) (lr - (fr - 1)) := by
      rw [List.mem_range']
      exact ⟨i - (fr - 1), by omega, by omega⟩
    obtain ⟨r, hr⟩ := pdaLoop_ok_all _ _ bins heq i hmem
    unfold pdaRow at hr
    cases hcell with
    | inl hage =>
      rw [hage] at hr
      simp [parseAgeCell] at hr
    | inr hnb =>
      rw [hnb] at hr
      cases hac : parseAgeCell (s i (ac - 1)) with
      | error e => rw [hac] at hr; cases hr
      | ok age => rw [hac] at hr; simp [parseNbCell] at hr

/-- Claim C9 witness: the row-range conjunct applied to the example sheet
and its variant that differs on every row outside the configured range:
the parses coincide. -/
theorem parsePda_rows_inclusive_witness :
    parsePda exampleSheet 1 2 2 5 2017 = parsePda exampleSheetAlt 1 2 2 5 2017 :=
  parsePda_rows_inclusive.2.2.1 exampleSheet exampleSheetAlt 1 2 2 5 2017
    (fun i _ h2 => by
      constructor <;> simp [exampleSheetAlt, show ¬ 2 ≤ i by omega])
